import Mathlib

/-
  Shallow embedding of the BookRental Solidity contract (the revision
  with rentalPeriod, late fees, excess-payment refund and metadataUri;
  the revision the specification designates as canonical).

  Modelling conventions:
  - Addresses are natural numbers; 0 plays the role of address(0), the
    "none" identity.  EVM callers are never address(0), so the step
    relation over the ledger takes nonzero senders.
  - uint256 values are natural numbers.  Solidity 0.8 checked arithmetic
    reverts with Panic(0x11) instead of wrapping; every addition,
    subtraction and multiplication of the source is therefore rendered
    as a guard on the exact result (bound check against UINT256_MAX, or
    order check for subtraction) whose failure branch is the
    arithmeticPanic error, in the evaluation order of the source.  The
    book id counter is a uint128 in this revision, so its increment is
    checked against the uint128 bound.
  - Sequential require clauses become nested conditionals whose failure
    branches carry the error named after the revert message.
  - External value transfers (low-level call) are assumed to succeed;
    their amounts are reported in receipts and reflected in the contract
    balance (the escrow).  Transaction revert semantics (a failed call
    leaves storage at the pre-state) are modelled by the Tx wrappers,
    which return the pre-state together with the error.
-/

def UINT256_MAX : Nat := 2 ^ 256 - 1

def UINT128_MAX : Nat := 2 ^ 128 - 1

/-- Errors raised by the contract operations; names follow the error
taxonomy of the specification.  arithmeticPanic corresponds to a Solidity
Panic(0x11) raised by checked arithmetic. -/
inductive RentalError where
  | invalidAmount
  | notFound
  | notAvailable
  | selfRentalForbidden
  | insufficientPayment
  | notRented
  | notRenter
  | arithmeticPanic
  deriving DecidableEq, Repr

/-- The Book struct of the contract. -/
structure Book where
  title : String
  dailyPrice : Nat
  deposit : Nat
  owner : Nat
  renter : Nat
  rentedAt : Nat
  rentalPeriod : Nat
  isAvailable : Bool
  metadataUri : String
  deriving Repr

/-- The default value of the Book struct: what the books mapping yields
at a key that was never written. -/
def defaultBook : Book :=
  { title := "", dailyPrice := 0, deposit := 0, owner := 0, renter := 0,
    rentedAt := 0, rentalPeriod := 0, isAvailable := false, metadataUri := "" }

/-- Contract storage plus the ether balance held by the contract (the
escrow).  books and userRentals are total maps, as Solidity mappings are. -/
structure ContractState where
  books : Nat → Book
  bookIdCounter : Nat
  userRentals : Nat → List Nat
  balance : Nat

/-- The storage of a freshly deployed contract. -/
def initialState : ContractState :=
  { books := fun _ => defaultBook, bookIdCounter := 0,
    userRentals := fun _ => [], balance := 0 }

/-- Receipt of a successful rentBook: the immediate payment forwarded to
the owner and the excess payment refunded to the renter. -/
structure RentReceipt where
  ownerPayout : Nat
  renterRefund : Nat
  deriving DecidableEq, Repr

/-- Receipt of a successful returnBook: the escrow share sent to the
owner, the refund sent to the renter, and the late fee (as emitted in the
BookReturned event). -/
structure ReturnReceipt where
  ownerPayout : Nat
  renterRefund : Nat
  lateFee : Nat
  deriving DecidableEq, Repr

/-- listBook: the two require clauses on the amounts, then the checked
uint128 counter increment and the insertion of the new Book under the old
counter value. -/
def listBook (st : ContractState) (sender : Nat) (title : String)
    (dailyPrice deposit : Nat) (metadataUri : String) :
    Except RentalError (ContractState × Nat) :=
  if dailyPrice > 0 then
    if deposit > 0 then
      if st.bookIdCounter + 1 ≤ UINT128_MAX then
        let bookId := st.bookIdCounter
        let newBook : Book :=
          { title := title, dailyPrice := dailyPrice, deposit := deposit,
            owner := sender, renter := 0, rentedAt := 0, rentalPeriod := 0,
            isAvailable := true, metadataUri := metadataUri }
        let st' : ContractState :=
          { st with
            books := fun j => if j = bookId then newBook else st.books j
            bookIdCounter := st.bookIdCounter + 1 }
        .ok (st', bookId)
      else .error .arithmeticPanic
    else .error .invalidAmount
  else .error .invalidAmount

/-- rentBook: the four require clauses (the payment check computes
deposit + dailyPrice with checked addition), then the storage update
(renter, rentedAt, isAvailable, rentalPeriod = now + 1 days computed with
checked addition, push onto userRentals), the immediate payment of
dailyPrice to the owner, and the refund of any payment in excess of
deposit + dailyPrice.  value is the ether sent with the call, now is
block.timestamp. -/
def rentBook (st : ContractState) (bookId sender value now : Nat) :
    Except RentalError (ContractState × RentReceipt) :=
  let book := st.books bookId
  if book.owner ≠ 0 then
    if book.isAvailable = true then
      if sender ≠ book.owner then
        if book.deposit + book.dailyPrice ≤ UINT256_MAX then
          if value ≥ book.deposit + book.dailyPrice then
            if now + 86400 ≤ UINT256_MAX then
              let cost := book.deposit + book.dailyPrice
              let book' : Book :=
                { book with
                  renter := sender
                  rentedAt := now
                  isAvailable := false
                  rentalPeriod := now + 86400 }
              let ownerPayout := book.dailyPrice
              let renterRefund := if value > cost then value - cost else 0
              let st' : ContractState :=
                { st with
                  books := fun j => if j = bookId then book' else st.books j
                  userRentals := fun h =>
                    if h = sender then st.userRentals sender ++ [bookId]
                    else st.userRentals h
                  balance := st.balance + value - ownerPayout - renterRefund }
              .ok (st', { ownerPayout := ownerPayout, renterRefund := renterRefund })
            else .error .arithmeticPanic
          else .error .insufficientPayment
        else .error .arithmeticPanic
      else .error .selfRentalForbidden
    else .error .notAvailable
  else .error .notFound

/-- The tail of the fee computation of returnBook: the subtraction
rentalDays - 1 (checked, but rentalDays is at least 1), the
multiplication by the daily price and the final addition of the late
fee, both checked.  Returns (rentalDays, lateFee, totalRentalCost). -/
def rentalFinish (book : Book) (rentalDays lateFee : Nat) :
    Except RentalError (Nat × Nat × Nat) :=
  if 1 ≤ rentalDays then
    if book.dailyPrice * (rentalDays - 1) ≤ UINT256_MAX then
      if book.dailyPrice * (rentalDays - 1) + lateFee ≤ UINT256_MAX then
        .ok (rentalDays, lateFee, book.dailyPrice * (rentalDays - 1) + lateFee)
      else .error .arithmeticPanic
    else .error .arithmeticPanic
  else .error .arithmeticPanic

/-- The fee computation of returnBook, lines 246 to 259 of the source:
rentalDays = (now - rentedAt + 86399) / 86400 raised to 1 when 0 (the
subtraction and addition are checked), the late fee
dailyPrice * ((now - rentalPeriod + 86399) / 86400) when now exceeds
rentalPeriod and 0 otherwise, and the total rental cost beyond the
already-paid first day via rentalFinish. -/
def rentalAccounting (book : Book) (now : Nat) :
    Except RentalError (Nat × Nat × Nat) :=
  if book.rentedAt ≤ now then
    if now - book.rentedAt + 86399 ≤ UINT256_MAX then
      let rd := (now - book.rentedAt + 86399) / 86400
      let rentalDays := if rd = 0 then 1 else rd
      if now > book.rentalPeriod then
        if now - book.rentalPeriod + 86399 ≤ UINT256_MAX then
          if book.dailyPrice * ((now - book.rentalPeriod + 86399) / 86400) ≤ UINT256_MAX then
            rentalFinish book rentalDays
              (book.dailyPrice * ((now - book.rentalPeriod + 86399) / 86400))
          else .error .arithmeticPanic
        else .error .arithmeticPanic
      else rentalFinish book rentalDays 0
    else .error .arithmeticPanic
  else .error .arithmeticPanic

/-- The swap-remove loop of removeFromUserRentals, rendered as a
recursion: walk the list, replace the first occurrence of the id with the
last element of the whole list, then pop the last slot; if the id is not
found the list is left unchanged. -/
def swapRemoveGo (last : Nat) : List Nat → Nat → Option (List Nat)
  | [], _ => none
  | a :: l, x => if a = x then some (last :: l) else (swapRemoveGo last l x).map (a :: ·)

/-- removeFromUserRentals on one rentals list. -/
def swapRemove (l : List Nat) (x : Nat) : List Nat :=
  match swapRemoveGo (l.getLastD 0) l x with
  | none => l
  | some l' => l'.dropLast

/-- returnBook: the three require clauses, the fee computation, the
refund variable deposit - totalRentalCost (note: the source computes this
checked subtraction before comparing totalRentalCost with the deposit, so
it reverts whenever the total exceeds the deposit), the escrow
disbursement, and the storage reset (isAvailable, swap-remove from
userRentals, renter, rentedAt; rentalPeriod is not reset). -/
def returnBook (st : ContractState) (bookId sender now : Nat) :
    Except RentalError (ContractState × ReturnReceipt) :=
  let book := st.books bookId
  if book.owner ≠ 0 then
    if book.isAvailable = false then
      if sender = book.renter then
        match rentalAccounting book now with
        | .error e => .error e
        | .ok acc =>
          let lateFee := acc.2.1
          let total := acc.2.2
          if total ≤ book.deposit then
            let refundAmount := book.deposit - total
            let ownerPayout := if total < book.deposit then total else book.deposit
            let renterRefund := if total < book.deposit then refundAmount else 0
            let book' : Book :=
              { book with
                isAvailable := true
                renter := 0
                rentedAt := 0 }
            let st' : ContractState :=
              { st with
                books := fun j => if j = bookId then book' else st.books j
                userRentals := fun h =>
                  if h = sender then swapRemove (st.userRentals sender) bookId
                  else st.userRentals h
                balance := st.balance - (ownerPayout + renterRefund) }
            .ok (st', { ownerPayout := ownerPayout,
                        renterRefund := renterRefund, lateFee := lateFee })
          else .error .arithmeticPanic
      else .error .notRenter
    else .error .notRented
  else .error .notFound

/-- The tuple returned by getBookDetails (no rentalPeriod field). -/
structure BookView where
  title : String
  dailyPrice : Nat
  deposit : Nat
  owner : Nat
  renter : Nat
  rentedAt : Nat
  isAvailable : Bool
  metadataUri : String
  deriving DecidableEq, Repr

/-- getBookDetails: a plain storage read, total on every id. -/
def getBookDetails (st : ContractState) (bookId : Nat) : BookView :=
  let b := st.books bookId
  { title := b.title, dailyPrice := b.dailyPrice, deposit := b.deposit,
    owner := b.owner, renter := b.renter, rentedAt := b.rentedAt,
    isAvailable := b.isAvailable, metadataUri := b.metadataUri }

/-- getUserRentals: a plain storage read. -/
def getUserRentals (st : ContractState) (user : Nat) : List Nat :=
  st.userRentals user

/-- Transactional wrapper for rentBook: EVM revert semantics, a failed
call leaves storage at the pre-state. -/
def rentBookTx (st : ContractState) (bookId sender value now : Nat) :
    ContractState × Except RentalError RentReceipt :=
  match rentBook st bookId sender value now with
  | .ok (st', r) => (st', .ok r)
  | .error e => (st, .error e)

/-- Transactional wrapper for returnBook. -/
def returnBookTx (st : ContractState) (bookId sender now : Nat) :
    ContractState × Except RentalError ReturnReceipt :=
  match returnBook st bookId sender now with
  | .ok (st', r) => (st', .ok r)
  | .error e => (st, .error e)

/-- Transactional wrapper for listBook. -/
def listBookTx (st : ContractState) (sender : Nat) (title : String)
    (dailyPrice deposit : Nat) (metadataUri : String) :
    ContractState × Except RentalError Nat :=
  match listBook st sender title dailyPrice deposit metadataUri with
  | .ok (st', i) => (st', .ok i)
  | .error e => (st, .error e)

/-- One contract transaction issued by a nonzero caller (EVM senders are
never address(0)). -/
inductive Step : ContractState → ContractState → Prop where
  | list (st : ContractState) (sender : Nat) (title : String)
      (dailyPrice deposit : Nat) (uri : String) (st' : ContractState) (id : Nat)
      (hs : sender ≠ 0)
      (h : listBook st sender title dailyPrice deposit uri = .ok (st', id)) :
      Step st st'
  | rent (st : ContractState) (bookId sender value now : Nat)
      (st' : ContractState) (rec : RentReceipt)
      (hs : sender ≠ 0)
      (h : rentBook st bookId sender value now = .ok (st', rec)) :
      Step st st'
  | ret (st : ContractState) (bookId sender now : Nat)
      (st' : ContractState) (rec : ReturnReceipt)
      (hs : sender ≠ 0)
      (h : returnBook st bookId sender now = .ok (st', rec)) :
      Step st st'

/-- States reachable from a fresh deployment by list, rent and return. -/
inductive Reachable : ContractState → Prop where
  | init : Reachable initialState
  | step {st st' : ContractState} : Reachable st → Step st st' → Reachable st'

/-- Ceiling division as the specification defines it in section 4.3. -/
def ceilDiv (a b : Nat) : Nat := (a + b - 1) / b

/- Concrete states used as witnesses: a listing by owner 1 at price 100
and deposit 1000, then a rental by renter 2 at time 0 with payment 1100. -/

def st1 : ContractState :=
  match listBook initialState 1 "Dune" 100 1000 "u" with
  | .ok p => p.1
  | .error _ => initialState

def st2 : ContractState :=
  match rentBook st1 0 2 1100 0 with
  | .ok p => p.1
  | .error _ => st1

/- Further concrete states: a return on time at t = 200000 (three days,
two of them late), and a listing whose deposit makes deposit + dailyPrice
overflow uint256. -/

def st3 : ContractState :=
  match returnBook st2 0 2 200000 with
  | .ok p => p.1
  | .error _ => st2

def stBig : ContractState :=
  match listBook initialState 1 "X" 1 (2 ^ 256 - 1) "" with
  | .ok p => p.1
  | .error _ => initialState

/-- The detail query lifted to the error-capable query interface of the
specification (detail(id) is Item or NotFound there); the source
getBookDetails has no failure branch, so every id produces an ok
result. -/
def detailResult (st : ContractState) (bookId : Nat) :
    Except RentalError BookView :=
  Except.ok (getBookDetails st bookId)

/-- The ledger invariant maintained by every operation: storage beyond
the counter is untouched, every listed item has a nonzero owner,
availability mirrors the absence of a renter, and the holder rental
index is duplicate-free and matches the renter fields exactly. -/
structure LedgerInv (st : ContractState) : Prop where
  default_beyond : ∀ i, st.bookIdCounter ≤ i → st.books i = defaultBook
  owner_exists : ∀ i, i < st.bookIdCounter → (st.books i).owner ≠ 0
  avail_iff : ∀ i, (st.books i).owner ≠ 0 →
    ((st.books i).isAvailable = true ↔ (st.books i).renter = 0)
  nodup : ∀ h, (st.userRentals h).Nodup
  index_iff : ∀ h, h ≠ 0 → ∀ i, (i ∈ st.userRentals h ↔ (st.books i).renter = h)

theorem return_st3 : returnBook st2 0 2 200000 = .ok (st3, ⟨400, 600, 200⟩) := rfl

theorem list_st1 : listBook initialState 1 "Dune" 100 1000 "u" = .ok (st1, 0) := rfl

theorem rent_st2 : rentBook st1 0 2 1100 0 = .ok (st2, ⟨100, 0⟩) := rfl

theorem reachable_st1 : Reachable st1 :=
  Reachable.step Reachable.init
    (Step.list initialState 1 "Dune" 100 1000 "u" st1 0 (by decide) list_st1)

theorem reachable_st2 : Reachable st2 :=
  Reachable.step reachable_st1
    (Step.rent st1 0 2 1100 0 st2 ⟨100, 0⟩ (by decide) rent_st2)


/- Elimination lemmas: what a successful operation implies about its
preconditions, receipt and post-state. -/

/-- Everything a successful listBook guarantees. -/
theorem listBook_ok {st st' : ContractState} {sender : Nat} {title : String}
    {dailyPrice deposit : Nat} {uri : String} {id : Nat}
    (h : listBook st sender title dailyPrice deposit uri = .ok (st', id)) :
    0 < dailyPrice ∧ 0 < deposit ∧
    id = st.bookIdCounter ∧
    st'.bookIdCounter = st.bookIdCounter + 1 ∧
    (∀ j, j ≠ id → st'.books j = st.books j) ∧
    st'.books id = { title := title, dailyPrice := dailyPrice,
                     deposit := deposit, owner := sender, renter := 0,
                     rentedAt := 0, rentalPeriod := 0, isAvailable := true,
                     metadataUri := uri } ∧
    st'.userRentals = st.userRentals ∧
    st'.balance = st.balance := by
  simp only [listBook] at h
  split_ifs at h with h1 h2 h3
  simp only [Except.ok.injEq, Prod.mk.injEq] at h
  obtain ⟨hst, hid⟩ := h
  subst hst
  subst hid
  refine ⟨h1, h2, rfl, rfl, ?_, ?_, rfl, rfl⟩
  · intro j hj
    simp [hj]
  · simp

/-- In natural subtraction the guarded excess refund of rentBook equals
the plain difference. -/
theorem refund_if (value cost : Nat) :
    (if value > cost then value - cost else 0) = value - cost := by
  split <;> omega

/-- Everything a successful rentBook guarantees.  In particular: exactly
dailyPrice goes to the owner, the excess over deposit + dailyPrice goes
back to the renter, and the balance retained by the contract grows by
exactly the deposit. -/
theorem rentBook_ok {st st' : ContractState} {bookId sender value now : Nat}
    {rec : RentReceipt}
    (h : rentBook st bookId sender value now = .ok (st', rec)) :
    (st.books bookId).owner ≠ 0 ∧
    (st.books bookId).isAvailable = true ∧
    sender ≠ (st.books bookId).owner ∧
    (st.books bookId).deposit + (st.books bookId).dailyPrice ≤ UINT256_MAX ∧
    value ≥ (st.books bookId).deposit + (st.books bookId).dailyPrice ∧
    now + 86400 ≤ UINT256_MAX ∧
    rec.ownerPayout = (st.books bookId).dailyPrice ∧
    rec.renterRefund = value - ((st.books bookId).deposit + (st.books bookId).dailyPrice) ∧
    (∀ j, j ≠ bookId → st'.books j = st.books j) ∧
    (st'.books bookId).renter = sender ∧
    (st'.books bookId).rentedAt = now ∧
    (st'.books bookId).rentalPeriod = now + 86400 ∧
    (st'.books bookId).isAvailable = false ∧
    (st'.books bookId).title = (st.books bookId).title ∧
    (st'.books bookId).dailyPrice = (st.books bookId).dailyPrice ∧
    (st'.books bookId).deposit = (st.books bookId).deposit ∧
    (st'.books bookId).owner = (st.books bookId).owner ∧
    (st'.books bookId).metadataUri = (st.books bookId).metadataUri ∧
    (∀ h', h' ≠ sender → st'.userRentals h' = st.userRentals h') ∧
    st'.userRentals sender = st.userRentals sender ++ [bookId] ∧
    st'.bookIdCounter = st.bookIdCounter ∧
    st'.balance = st.balance + (st.books bookId).deposit := by
  simp only [rentBook, refund_if] at h
  split_ifs at h with h1 h2 h3 h4 h5 h6
  simp only [Except.ok.injEq, Prod.mk.injEq] at h
  obtain ⟨hst, hrec⟩ := h
  subst hst
  subst hrec
  refine ⟨h1, h2, h3, h4, h5, h6, rfl, rfl, ?_, ?_, ?_, ?_, ?_, ?_, ?_, ?_, ?_, ?_, ?_, ?_, rfl, ?_⟩
  · intro j hj
    simp [hj]
  · simp
  · simp
  · simp
  · simp
  · simp
  · simp
  · simp
  · simp
  · simp
  · intro x hx
    simp [hx]
  · simp
  · show st.balance + value - (st.books bookId).dailyPrice -
        (value - ((st.books bookId).deposit + (st.books bookId).dailyPrice)) =
        st.balance + (st.books bookId).deposit
    omega

/-- Everything a successful rentalFinish guarantees. -/
theorem rentalFinish_ok {book : Book} {rentalDays lateFee : Nat}
    {d f t : Nat}
    (h : rentalFinish book rentalDays lateFee = .ok (d, f, t)) :
    d = rentalDays ∧ f = lateFee ∧ 1 ≤ rentalDays ∧
    t = book.dailyPrice * (rentalDays - 1) + lateFee ∧
    t ≤ UINT256_MAX := by
  simp only [rentalFinish] at h
  split_ifs at h with h1 h2 h3
  simp only [Except.ok.injEq, Prod.mk.injEq] at h
  obtain ⟨hd, hf, ht⟩ := h
  subst hd
  subst hf
  subst ht
  exact ⟨rfl, rfl, h1, rfl, h3⟩

/-- The source rounding term equals ceilDiv of the specification. -/
theorem ceilDiv_86400 (a : Nat) : (a + 86399) / 86400 = ceilDiv a 86400 := by
  unfold ceilDiv
  have h : a + 86400 - 1 = a + 86399 := by omega
  rw [h]

/-- Everything a successful rentalAccounting guarantees: the day count is
the ceiling of the elapsed time with a floor of one day, the late fee is
the daily price times the ceiling of the time past rentalPeriod, the
total is dailyPrice * (rentalDays - 1) + lateFee, and every intermediate
value is the exact mathematical one (the success branches of the checked
operations). -/
theorem rentalAccounting_ok {book : Book} {now : Nat} {d f t : Nat}
    (h : rentalAccounting book now = .ok (d, f, t)) :
    book.rentedAt ≤ now ∧
    d = max (ceilDiv (now - book.rentedAt) 86400) 1 ∧
    f = (if book.rentalPeriod < now then
           book.dailyPrice * ceilDiv (now - book.rentalPeriod) 86400 else 0) ∧
    t = book.dailyPrice * (d - 1) + f ∧
    t ≤ UINT256_MAX := by
  simp only [rentalAccounting] at h
  split_ifs at h
  all_goals
    obtain ⟨hd, hf, hone, ht, hmax⟩ := rentalFinish_ok h
  all_goals
    subst hd
  all_goals
    subst hf
  all_goals
    subst ht
  all_goals
    refine ⟨by omega, ?_, ?_, rfl, hmax⟩ <;>
      first
        | (rw [← ceilDiv_86400]; omega)
        | rw [if_neg (by omega)]
        | rw [if_pos (by omega), ← ceilDiv_86400]

/-- A failed rentalAccounting always fails with an arithmetic panic. -/
theorem rentalAccounting_error {book : Book} {now : Nat} {e : RentalError}
    (h : rentalAccounting book now = .error e) : e = .arithmeticPanic := by
  simp only [rentalAccounting, rentalFinish] at h
  split_ifs at h <;> simp_all

/-- Everything a successful returnBook guarantees: the preconditions, the
fee computation, the escrow split (the owner receives the total rental
cost, which on success never exceeds the deposit; the renter receives the
rest of the deposit), and the storage reset, which clears renter and
rentedAt but leaves rentalPeriod at its rented-state value. -/
theorem returnBook_ok {st st' : ContractState} {bookId sender now : Nat}
    {rec : ReturnReceipt}
    (h : returnBook st bookId sender now = .ok (st', rec)) :
    (st.books bookId).owner ≠ 0 ∧
    (st.books bookId).isAvailable = false ∧
    sender = (st.books bookId).renter ∧
    (∃ d t, rentalAccounting (st.books bookId) now = .ok (d, rec.lateFee, t) ∧
      t ≤ (st.books bookId).deposit ∧
      rec.ownerPayout = t ∧
      rec.renterRefund = (st.books bookId).deposit - t) ∧
    (∀ j, j ≠ bookId → st'.books j = st.books j) ∧
    (st'.books bookId).renter = 0 ∧
    (st'.books bookId).rentedAt = 0 ∧
    (st'.books bookId).isAvailable = true ∧
    (st'.books bookId).rentalPeriod = (st.books bookId).rentalPeriod ∧
    (st'.books bookId).title = (st.books bookId).title ∧
    (st'.books bookId).dailyPrice = (st.books bookId).dailyPrice ∧
    (st'.books bookId).deposit = (st.books bookId).deposit ∧
    (st'.books bookId).owner = (st.books bookId).owner ∧
    (st'.books bookId).metadataUri = (st.books bookId).metadataUri ∧
    (∀ x, x ≠ sender → st'.userRentals x = st.userRentals x) ∧
    st'.userRentals sender = swapRemove (st.userRentals sender) bookId ∧
    st'.bookIdCounter = st.bookIdCounter ∧
    st'.balance = st.balance - (rec.ownerPayout + rec.renterRefund) := by
  simp only [returnBook] at h
  split_ifs at h with h1 h2 h3
  rcases hacc : rentalAccounting (st.books bookId) now with e | acc
  · rw [hacc] at h
    exact absurd h (by simp)
  · rw [hacc] at h
    obtain ⟨d, f, t⟩ := acc
    simp only at h
    split_ifs at h with h4 h5
    · simp only [Except.ok.injEq, Prod.mk.injEq] at h
      obtain ⟨hst, hrec⟩ := h
      subst hst
      subst hrec
      refine ⟨h1, h2, h3,
        ⟨d, t, rfl, h4, rfl, rfl⟩, ?_, ?_, ?_, ?_, ?_, ?_, ?_, ?_,
        ?_, ?_, ?_, ?_, rfl, ?_⟩
      · intro j hj
        simp [hj]
      · simp
      · simp
      · simp
      · simp
      · simp
      · simp
      · simp
      · simp
      · simp
      · intro x hx
        simp [hx]
      · simp
      · rfl
    · simp only [Except.ok.injEq, Prod.mk.injEq] at h
      obtain ⟨hst, hrec⟩ := h
      subst hst
      subst hrec
      refine ⟨h1, h2, h3,
        ⟨d, t, rfl, h4, by show (st.books bookId).deposit = t; omega,
         by show (0 : Nat) = (st.books bookId).deposit - t; omega⟩, ?_, ?_, ?_, ?_, ?_, ?_,
        ?_, ?_, ?_, ?_, ?_, ?_, rfl, ?_⟩
      · intro j hj
        simp [hj]
      · simp
      · simp
      · simp
      · simp
      · simp
      · simp
      · simp
      · simp
      · simp
      · intro x hx
        simp [hx]
      · simp
      · rfl

/- Properties of the swap-remove loop. -/

/-- When the id does not occur the loop runs off the end. -/
theorem swapRemoveGo_not_mem (last x : Nat) :
    ∀ l : List Nat, x ∉ l → swapRemoveGo last l x = none := by
  intro l
  induction l with
  | nil => intro _; rfl
  | cons a l ih =>
    intro hx
    have ha : ¬ a = x := fun he => hx (by simp [he])
    have hl : x ∉ l := fun hm => hx (List.mem_cons_of_mem a hm)
    simp [swapRemoveGo, ha, ih hl]

/-- When the id occurs, the loop replaces its first occurrence with the
supplied element. -/
theorem swapRemoveGo_mem (last x : Nat) :
    ∀ l : List Nat, x ∈ l →
      ∃ l₁ l₂, x ∉ l₁ ∧ l = l₁ ++ x :: l₂ ∧
        swapRemoveGo last l x = some (l₁ ++ last :: l₂) := by
  intro l
  induction l with
  | nil => intro hx; cases hx
  | cons a l ih =>
    intro hx
    by_cases ha : a = x
    · refine ⟨[], l, by simp, by simp [ha], ?_⟩
      simp [swapRemoveGo, ha]
    · have hl : x ∈ l := by
        rcases List.mem_cons.1 hx with h | h
        · exact absurd h.symm ha
        · exact h
      obtain ⟨l₁, l₂, hn, he, hgo⟩ := ih hl
      refine ⟨a :: l₁, l₂, ?_, by simp [he], ?_⟩
      · intro hm
        rcases List.mem_cons.1 hm with h | h
        · exact ha h.symm
        · exact hn h
      · simp [swapRemoveGo, ha, hgo]

/-- Swap-remove is, up to order, first-occurrence erasure. -/
theorem swapRemove_perm_erase (l : List Nat) (x : Nat) :
    List.Perm (swapRemove l x) (l.erase x) := by
  by_cases hx : x ∈ l
  · obtain ⟨l₁, l₂, hn, he, hgo⟩ := swapRemoveGo_mem (l.getLastD 0) x l hx
    have hsw : swapRemove l x = (l₁ ++ l.getLastD 0 :: l₂).dropLast := by
      unfold swapRemove
      rw [hgo]
    have herase : l.erase x = l₁ ++ l₂ := by
      rw [he, List.erase_append_right (x :: l₂) (by simpa using hn),
        List.erase_cons_head]
    rcases List.eq_nil_or_concat l₂ with h2 | ⟨L, b, h2⟩
    · subst h2
      have hlast : l.getLastD 0 = x := by
        rw [he, List.getLastD_eq_getLast?, List.getLast?_concat]
        rfl
      rw [hsw, hlast, herase, List.dropLast_concat]
      simp
    · subst h2
      rw [List.concat_eq_append] at he hgo hsw herase
      have hlast : l.getLastD 0 = b := by
        have hl2 : l = (l₁ ++ x :: L) ++ [b] := by simp [he]
        rw [hl2, List.getLastD_eq_getLast?, List.getLast?_concat]
        rfl
      have hshape : l₁ ++ l.getLastD 0 :: (L ++ [b]) =
          (l₁ ++ l.getLastD 0 :: L) ++ [b] := by simp
      rw [hsw, hshape, List.dropLast_concat, herase, hlast]
      refine List.Perm.append_left l₁ ?_
      exact (List.perm_append_singleton b L).symm
  · rw [swapRemove, swapRemoveGo_not_mem _ _ l hx, List.erase_of_not_mem hx]

/-- Swap-remove keeps lists duplicate-free. -/
theorem swapRemove_nodup {l : List Nat} {x : Nat} (h : l.Nodup) :
    (swapRemove l x).Nodup :=
  ((swapRemove_perm_erase l x).nodup_iff).2 (h.erase x)

/-- Membership after swap-remove on a duplicate-free list. -/
theorem mem_swapRemove_iff {l : List Nat} {x y : Nat} (h : l.Nodup) :
    y ∈ swapRemove l x ↔ y ≠ x ∧ y ∈ l := by
  rw [(swapRemove_perm_erase l x).mem_iff]
  exact h.mem_erase_iff

/-- The invariant holds on a fresh deployment. -/
theorem inv_init : LedgerInv initialState := by
  constructor
  · intro i _
    rfl
  · intro i hi
    simp [initialState] at hi
  · intro i hi
    simp [initialState, defaultBook] at hi
  · intro h
    simp [initialState]
  · intro h hh i
    simp [initialState, defaultBook]
    exact fun he => hh he.symm

/-- A listed book occupies a slot below the counter. -/
theorem lt_counter_of_owner {st : ContractState} (inv : LedgerInv st) {i : Nat}
    (h : (st.books i).owner ≠ 0) : i < st.bookIdCounter := by
  by_contra hge
  exact h (by rw [inv.default_beyond i (by omega)]; rfl)

/-- Every transaction preserves the ledger invariant. -/
theorem inv_preserved {st st' : ContractState} (inv : LedgerInv st)
    (hstep : Step st st') : LedgerInv st' := by
  cases hstep with
  | list sender title dailyPrice deposit uri _ id hs h =>
    obtain ⟨hp, hd, hid, hcnt, hframe, hnew, hur, _⟩ := listBook_ok h
    have hidlt : id < st'.bookIdCounter := by omega
    constructor
    · intro i hi
      rw [hframe i (by omega), inv.default_beyond i (by omega)]
    · intro i hi
      by_cases hij : i = id
      · subst hij
        rw [hnew]
        exact hs
      · rw [hframe i hij]
        exact inv.owner_exists i (by omega)
    · intro i hio
      by_cases hij : i = id
      · subst hij
        rw [hnew] at hio ⊢
        simp
      · rw [hframe i hij] at hio ⊢
        exact inv.avail_iff i hio
    · intro x
      rw [hur]
      exact inv.nodup x
    · intro x hx i
      rw [hur]
      by_cases hij : i = id
      · subst hij
        have hdef : st.books i = defaultBook := inv.default_beyond i (by omega)
        rw [hnew]
        constructor
        · intro hm
          have := (inv.index_iff x hx i).1 hm
          rw [hdef] at this
          exact absurd this.symm hx
        · intro hr
          exact absurd hr.symm hx
      · rw [hframe i hij]
        exact inv.index_iff x hx i
  | rent bookId sender value now _ rec hs h =>
    obtain ⟨ho, ha, _, _, _, _, _, _, hframe, hrent, _, _, havail, _, _, _, hown,
      _, hurf, hurs, hcnt, _⟩ := rentBook_ok h
    have hlt : bookId < st.bookIdCounter := lt_counter_of_owner inv ho
    have hrent0 : (st.books bookId).renter = 0 := (inv.avail_iff bookId ho).1 ha
    have hnotin : bookId ∉ st.userRentals sender := by
      intro hm
      have := (inv.index_iff sender hs bookId).1 hm
      omega
    constructor
    · intro i hi
      rw [hcnt] at hi
      have hij : i ≠ bookId := by omega
      rw [hframe i hij]
      exact inv.default_beyond i hi
    · intro i hi
      rw [hcnt] at hi
      by_cases hij : i = bookId
      · subst hij
        rw [hown]
        exact ho
      · rw [hframe i hij]
        exact inv.owner_exists i hi
    · intro i hio
      by_cases hij : i = bookId
      · subst hij
        rw [havail, hrent]
        simp [hs]
      · rw [hframe i hij] at hio ⊢
        exact inv.avail_iff i hio
    · intro x
      by_cases hx : x = sender
      · subst hx
        rw [hurs]
        simp [List.nodup_append, inv.nodup x, hnotin]
      · rw [hurf x hx]
        exact inv.nodup x
    · intro x hx i
      by_cases hxs : x = sender
      · subst hxs
        rw [hurs]
        by_cases hij : i = bookId
        · subst hij
          rw [hrent]
          simp
        · rw [hframe i hij]
          simp only [List.mem_append, List.mem_singleton, hij, or_false]
          exact inv.index_iff x hx i
      · rw [hurf x hxs]
        by_cases hij : i = bookId
        · subst hij
          rw [hrent]
          constructor
          · intro hm
            have := (inv.index_iff x hx i).1 hm
            omega
          · intro hr
            exact absurd hr.symm hxs
        · rw [hframe i hij]
          exact inv.index_iff x hx i
  | ret bookId sender now _ rec hs h =>
    obtain ⟨ho, _, _, _, hframe, hrent, _, havail, _, _, _, _, hown, _,
      hurf, hurs, hcnt, _⟩ := returnBook_ok h
    have hlt : bookId < st.bookIdCounter := lt_counter_of_owner inv ho
    constructor
    · intro i hi
      rw [hcnt] at hi
      have hij : i ≠ bookId := by omega
      rw [hframe i hij]
      exact inv.default_beyond i hi
    · intro i hi
      rw [hcnt] at hi
      by_cases hij : i = bookId
      · subst hij
        rw [hown]
        exact ho
      · rw [hframe i hij]
        exact inv.owner_exists i hi
    · intro i hio
      by_cases hij : i = bookId
      · subst hij
        rw [havail, hrent]
        simp
      · rw [hframe i hij] at hio ⊢
        exact inv.avail_iff i hio
    · intro x
      by_cases hx : x = sender
      · subst hx
        rw [hurs]
        exact swapRemove_nodup (inv.nodup x)
      · rw [hurf x hx]
        exact inv.nodup x
    · intro x hx i
      by_cases hxs : x = sender
      · subst hxs
        rw [hurs, mem_swapRemove_iff (inv.nodup x)]
        by_cases hij : i = bookId
        · subst hij
          rw [hrent]
          simp
          omega
        · rw [hframe i hij]
          simp only [hij, ne_eq, not_false_iff, true_and]
          exact inv.index_iff x hx i
      · rw [hurf x hxs]
        by_cases hij : i = bookId
        · subst hij
          rw [hrent]
          constructor
          · intro hm
            obtain ⟨_, _, hsr, _⟩ := returnBook_ok h
            have hthis := (inv.index_iff x hx i).1 hm
            rw [← hsr] at hthis
            exact (hxs hthis.symm).elim
          · intro hr
            exact absurd hr.symm hx
        · rw [hframe i hij]
          exact inv.index_iff x hx i

/-- Every reachable ledger state satisfies the invariant. -/
theorem reachable_inv {st : ContractState} (h : Reachable st) : LedgerInv st := by
  induction h with
  | init => exact inv_init
  | step _ hstep ih => exact inv_preserved ih hstep

/-- C1, evaluation at the failing input: with dailyPrice 100, deposit
1000, rented at t = 0 and returned at t = 777600 (nine days, eight of
them late), the fee computation yields owed = 1600, which exceeds the
deposit 1000; the specification says the owner then receives the full
deposit and the return succeeds, but the source computes
deposit - totalRentalCost with checked subtraction before comparing, so
the whole return reverts with an arithmetic panic and the book stays
rented. -/
theorem C1_return_capped_at_deposit :
    rentalAccounting (st2.books 0) 777600 = .ok (9, 800, 1600) ∧
    (st2.books 0).deposit = 1000 ∧
    returnBook st2 0 2 777600 = .error .arithmeticPanic :=
  ⟨rfl, rfl, rfl⟩

/-- C2: on every successful return, the day count is
ceil((now - rentedAt) / 86400) floored at one day, the late fee is
dailyPrice * ceil((now - rentalDueAt) / 86400) when now is past the due
time and zero otherwise, the owed amount is
dailyPrice * (rentalDays - 1) + lateFee, and that owed amount is what the
owner is paid. -/
theorem C2_return_fee_formulas {st st' : ContractState}
    {bookId sender now : Nat} {rec : ReturnReceipt}
    (h : returnBook st bookId sender now = .ok (st', rec)) :
    (st.books bookId).rentedAt ≤ now ∧
    (∃ rentalDays owed,
      rentalAccounting (st.books bookId) now = .ok (rentalDays, rec.lateFee, owed) ∧
      rentalDays = max (ceilDiv (now - (st.books bookId).rentedAt) 86400) 1 ∧
      rec.lateFee = (if (st.books bookId).rentalPeriod < now then
          (st.books bookId).dailyPrice *
            ceilDiv (now - (st.books bookId).rentalPeriod) 86400
        else 0) ∧
      owed = (st.books bookId).dailyPrice * (rentalDays - 1) + rec.lateFee ∧
      rec.ownerPayout = owed) := by
  obtain ⟨_, _, _, ⟨d, t, hacc, _, hop, _⟩, _⟩ := returnBook_ok h
  obtain ⟨hra, hd, hf, ht, _⟩ := rentalAccounting_ok hacc
  exact ⟨hra, d, t, hacc, hd, hf, ht, hop⟩

/-- C2 witness: the return of st2 at t = 200000 (rented at 0, due at
86400): three rental days, two late days, late fee 200, owed 400. -/
theorem C2_witness :
    (st2.books 0).rentedAt ≤ 200000 ∧
    (∃ rentalDays owed,
      rentalAccounting (st2.books 0) 200000 =
        .ok (rentalDays, (⟨400, 600, 200⟩ : ReturnReceipt).lateFee, owed) ∧
      rentalDays = max (ceilDiv (200000 - (st2.books 0).rentedAt) 86400) 1 ∧
      (⟨400, 600, 200⟩ : ReturnReceipt).lateFee =
        (if (st2.books 0).rentalPeriod < 200000 then
          (st2.books 0).dailyPrice *
            ceilDiv (200000 - (st2.books 0).rentalPeriod) 86400
        else 0) ∧
      owed = (st2.books 0).dailyPrice * (rentalDays - 1) +
        (⟨400, 600, 200⟩ : ReturnReceipt).lateFee ∧
      (⟨400, 600, 200⟩ : ReturnReceipt).ownerPayout = owed) :=
  C2_return_fee_formulas return_st3

/-- C3 counterexample: after the successful return of st2 at t = 200000
the stored rentalPeriod is still 86400, not the available-state value 0
that it had at listing time; the claim that the due time is cleared on
return fails. -/
theorem C3_counterexample :
    (st1.books 0).rentalPeriod = 0 ∧
    returnBook st2 0 2 200000 = .ok (st3, ⟨400, 600, 200⟩) ∧
    (st3.books 0).rentalPeriod = 86400 ∧
    (st3.books 0).rentalPeriod ≠ 0 :=
  ⟨rfl, return_st3, rfl, by decide⟩

/-- C3 amended: a successful return resets renter to none, rentedAt to 0
and isAvailable to true and leaves title, dailyPrice, deposit, owner and
metadataUri unchanged, but rentalPeriod keeps its rented-state value
instead of being cleared (it is only overwritten by the next rent). -/
theorem C3_return_resets_item {st st' : ContractState}
    {bookId sender now : Nat} {rec : ReturnReceipt}
    (h : returnBook st bookId sender now = .ok (st', rec)) :
    (st'.books bookId).renter = 0 ∧
    (st'.books bookId).rentedAt = 0 ∧
    (st'.books bookId).isAvailable = true ∧
    (st'.books bookId).rentalPeriod = (st.books bookId).rentalPeriod ∧
    (st'.books bookId).title = (st.books bookId).title ∧
    (st'.books bookId).dailyPrice = (st.books bookId).dailyPrice ∧
    (st'.books bookId).deposit = (st.books bookId).deposit ∧
    (st'.books bookId).owner = (st.books bookId).owner ∧
    (st'.books bookId).metadataUri = (st.books bookId).metadataUri := by
  obtain ⟨_, _, _, _, _, h1, h2, h3, h4, h5, h6, h7, h8, h9, _⟩ := returnBook_ok h
  exact ⟨h1, h2, h3, h4, h5, h6, h7, h8, h9⟩

/-- C3 witness: the concrete return of st2 at t = 200000. -/
theorem C3_witness :
    (st3.books 0).renter = 0 ∧
    (st3.books 0).rentedAt = 0 ∧
    (st3.books 0).isAvailable = true ∧
    (st3.books 0).rentalPeriod = (st2.books 0).rentalPeriod ∧
    (st3.books 0).title = (st2.books 0).title ∧
    (st3.books 0).dailyPrice = (st2.books 0).dailyPrice ∧
    (st3.books 0).deposit = (st2.books 0).deposit ∧
    (st3.books 0).owner = (st2.books 0).owner ∧
    (st3.books 0).metadataUri = (st2.books 0).metadataUri :=
  C3_return_resets_item return_st3

/-- C4: a successful rent sets the renter, rentedAt = now,
rentalDueAt = now + one day, isAvailable = false, registers the id under
the renter in the holder rental index, pays exactly dailyPrice to the
owner at once, refunds the excess over deposit + dailyPrice to the
renter in the same transaction, and retains exactly the deposit in the
ledger escrow. -/
theorem C4_rent_effects {st st' : ContractState}
    {bookId sender value now : Nat} {rec : RentReceipt}
    (h : rentBook st bookId sender value now = .ok (st', rec)) :
    (st'.books bookId).renter = sender ∧
    (st'.books bookId).rentedAt = now ∧
    (st'.books bookId).rentalPeriod = now + 86400 ∧
    (st'.books bookId).isAvailable = false ∧
    bookId ∈ getUserRentals st' sender ∧
    rec.ownerPayout = (st.books bookId).dailyPrice ∧
    rec.renterRefund = value - ((st.books bookId).deposit + (st.books bookId).dailyPrice) ∧
    st'.balance = st.balance + (st.books bookId).deposit := by
  obtain ⟨_, _, _, _, _, _, hop, hrr, _, h1, h2, h3, h4, _, _, _, _, _, _,
    hurs, _, hbal⟩ := rentBook_ok h
  refine ⟨h1, h2, h3, h4, ?_, hop, hrr, hbal⟩
  unfold getUserRentals
  rw [hurs]
  simp

/-- C4 witness: the concrete rent of st1 by renter 2 with payment 1100
at t = 0. -/
theorem C4_witness :
    (st2.books 0).renter = 2 ∧
    (st2.books 0).rentedAt = 0 ∧
    (st2.books 0).rentalPeriod = 0 + 86400 ∧
    (st2.books 0).isAvailable = false ∧
    0 ∈ getUserRentals st2 2 ∧
    (⟨100, 0⟩ : RentReceipt).ownerPayout = (st1.books 0).dailyPrice ∧
    (⟨100, 0⟩ : RentReceipt).renterRefund =
      1100 - ((st1.books 0).deposit + (st1.books 0).dailyPrice) ∧
    st2.balance = st1.balance + (st1.books 0).deposit :=
  C4_rent_effects rent_st2

/-- When the checked sum deposit + dailyPrice overflows uint256 and the
earlier require clauses pass, rentBook reverts with the arithmetic
panic. -/
theorem rentBook_overflow_panic (st : ContractState) (bookId sender value now : Nat)
    (h1 : (st.books bookId).owner ≠ 0) (h2 : (st.books bookId).isAvailable = true)
    (h3 : sender ≠ (st.books bookId).owner)
    (h4 : UINT256_MAX < (st.books bookId).deposit + (st.books bookId).dailyPrice) :
    rentBook st bookId sender value now = .error .arithmeticPanic := by
  simp only [rentBook, refund_if]
  split_ifs <;> simp_all <;> omega

/-- C5 counterexample: a listed book with deposit 2^256 - 1 and daily
price 1 exists, is available, and is rented by a non-owner with payment
1000, which is less than deposit + dailyPrice; the claim demands an
InsufficientPayment failure, but the checked addition
deposit + dailyPrice overflows uint256 first, so the source reverts with
an arithmetic panic instead. -/
theorem C5_counterexample :
    (stBig.books 0).owner ≠ 0 ∧
    (stBig.books 0).isAvailable = true ∧
    (2 : Nat) ≠ (stBig.books 0).owner ∧
    1000 < (stBig.books 0).deposit + (stBig.books 0).dailyPrice ∧
    rentBook stBig 0 2 1000 0 = .error .arithmeticPanic ∧
    RentalError.arithmeticPanic ≠ RentalError.insufficientPayment :=
  ⟨by decide, by decide, by decide, by decide, rfl, by decide⟩

/-- C5 amended: rent fails with NotFound iff the item does not exist
(owner = none), otherwise with NotAvailable iff the item is not
available, otherwise with SelfRentalForbidden iff the caller is the
owner; when deposit + dailyPrice does not overflow uint256 it fails with
InsufficientPayment iff payment < deposit + dailyPrice, while if
deposit + dailyPrice overflows uint256 it fails with ArithmeticOverflow
instead; and every failed rent leaves the whole ledger state unchanged
(EVM revert, the Tx wrapper). -/
theorem C5_rent_error_cases (st : ContractState) (bookId sender value now : Nat) :
    (rentBook st bookId sender value now = .error .notFound ↔
      (st.books bookId).owner = 0) ∧
    (rentBook st bookId sender value now = .error .notAvailable ↔
      ((st.books bookId).owner ≠ 0 ∧ (st.books bookId).isAvailable = false)) ∧
    (rentBook st bookId sender value now = .error .selfRentalForbidden ↔
      ((st.books bookId).owner ≠ 0 ∧ (st.books bookId).isAvailable = true ∧
        sender = (st.books bookId).owner)) ∧
    ((st.books bookId).deposit + (st.books bookId).dailyPrice ≤ UINT256_MAX →
      (rentBook st bookId sender value now = .error .insufficientPayment ↔
        ((st.books bookId).owner ≠ 0 ∧ (st.books bookId).isAvailable = true ∧
          sender ≠ (st.books bookId).owner ∧
          value < (st.books bookId).deposit + (st.books bookId).dailyPrice))) ∧
    ((st.books bookId).owner ≠ 0 → (st.books bookId).isAvailable = true →
      sender ≠ (st.books bookId).owner →
      UINT256_MAX < (st.books bookId).deposit + (st.books bookId).dailyPrice →
      rentBook st bookId sender value now = .error .arithmeticPanic) ∧
    (∀ e, rentBook st bookId sender value now = .error e →
      rentBookTx st bookId sender value now = (st, .error e)) := by
  refine ⟨?_, ?_, ?_, ?_, ?_, ?_⟩
  · simp only [rentBook, refund_if]
    split_ifs <;> simp_all
  · simp only [rentBook, refund_if]
    split_ifs <;> simp_all
  · simp only [rentBook, refund_if]
    split_ifs <;> simp_all
  · intro hb
    simp only [rentBook, refund_if]
    split_ifs <;> simp_all
  · intro h1 h2 h3 h4
    exact rentBook_overflow_panic st bookId sender value now h1 h2 h3 h4
  · intro e he
    simp [rentBookTx, he]

/-- C5 witness: a concrete InsufficientPayment failure on st1 with
payment 50 < 1100, and the reverted transaction returning the pre-state. -/
theorem C5_witness :
    rentBook st1 0 2 50 0 = .error .insufficientPayment ∧
    rentBookTx st1 0 2 50 0 = (st1, .error .insufficientPayment) := by
  have h := C5_rent_error_cases st1 0 2 50 0
  have hins : rentBook st1 0 2 50 0 = .error .insufficientPayment :=
    (h.2.2.2.1 (by decide)).2 ⟨by decide, by decide, by decide, by decide⟩
  exact ⟨hins, h.2.2.2.2.2 _ hins⟩

/-- C6: in every reachable ledger state, every listed item is available
exactly when it has no renter. -/
theorem C6_available_iff_no_renter {st : ContractState} (h : Reachable st) :
    ∀ i, i < st.bookIdCounter →
      ((st.books i).isAvailable = true ↔ (st.books i).renter = 0) := by
  intro i hi
  exact (reachable_inv h).avail_iff i ((reachable_inv h).owner_exists i hi)

/-- C6 witness: the invariant evaluated on the reachable rented state
st2 at item 0. -/
theorem C6_witness :
    (st2.books 0).isAvailable = true ↔ (st2.books 0).renter = 0 :=
  C6_available_iff_no_renter reachable_st2 0 (by decide)

/-- C7: in every reachable state the holder rental index is exact: an id
is in the list of a holder iff that holder is the stored renter;
immediately after a successful rent the id is in the list of the renter
and in the list of no other holder, and immediately after a successful
return it is gone from the list of the former renter. -/
theorem C7_holder_index_exact {st : ContractState} (h : Reachable st) :
    (∀ hld, hld ≠ 0 → ∀ i,
      (i ∈ getUserRentals st hld ↔ (st.books i).renter = hld)) ∧
    (∀ bookId sender value now st' rec, sender ≠ 0 →
      rentBook st bookId sender value now = .ok (st', rec) →
      bookId ∈ getUserRentals st' sender ∧
      ∀ x, x ≠ 0 → x ≠ sender → bookId ∉ getUserRentals st' x) ∧
    (∀ bookId sender now st' rec, sender ≠ 0 →
      returnBook st bookId sender now = .ok (st', rec) →
      bookId ∉ getUserRentals st' sender) := by
  have inv := reachable_inv h
  refine ⟨fun hld hh i => inv.index_iff hld hh i, ?_, ?_⟩
  · intro bookId sender value now st' rec hs hr
    have inv' : LedgerInv st' :=
      inv_preserved inv (Step.rent st bookId sender value now st' rec hs hr)
    obtain ⟨_, _, _, _, _, _, _, _, _, hrent, _⟩ := rentBook_ok hr
    constructor
    · exact (inv'.index_iff sender hs bookId).2 hrent
    · intro x hx hxs hm
      have := (inv'.index_iff x hx bookId).1 hm
      rw [hrent] at this
      exact hxs this.symm
  · intro bookId sender now st' rec hs hr
    have inv' : LedgerInv st' :=
      inv_preserved inv (Step.ret st bookId sender now st' rec hs hr)
    obtain ⟨_, _, _, _, _, hrent, _⟩ := returnBook_ok hr
    intro hm
    have := (inv'.index_iff sender hs bookId).1 hm
    rw [hrent] at this
    exact hs this.symm

/-- C7 witness: after the concrete rent of st1 by renter 2, item 0 is in
the list of holder 2 and not in the list of holder 3, and after the
concrete return at t = 200000 it is gone from the list of holder 2. -/
theorem C7_witness :
    (0 ∈ getUserRentals st2 2 ∧ 0 ∉ getUserRentals st2 3) ∧
    0 ∉ getUserRentals st3 2 := by
  have h1 := (C7_holder_index_exact reachable_st1).2.1 0 2 1100 0 st2 ⟨100, 0⟩
    (by decide) rent_st2
  have h2 := (C7_holder_index_exact reachable_st2).2.2 0 2 200000 st3
    ⟨400, 600, 200⟩ (by decide) return_st3
  exact ⟨⟨h1.1, h1.2 3 (by decide) (by decide)⟩, h2⟩

/-- C8 counterexample: the id 0 was never assigned in the fresh state,
yet the detail query does not produce a NotFound error; it returns the
all-default record of the unwritten mapping slot. -/
theorem C8_counterexample :
    detailResult initialState 0 ≠ .error RentalError.notFound ∧
    detailResult initialState 0 = .ok ⟨"", 0, 0, 0, 0, 0, false, ""⟩ :=
  ⟨by simp [detailResult], rfl⟩

/-- C8 amended: for every reachable state and every id never assigned by
a listing, the detail query returns the default record (empty title,
zero amounts, owner = none, not available) rather than a NotFound error;
absence is signalled by owner = none, and only the mutating operations
check it. -/
theorem C8_detail_unknown_id {st : ContractState} (h : Reachable st)
    {i : Nat} (hi : st.bookIdCounter ≤ i) :
    getBookDetails st i = ⟨"", 0, 0, 0, 0, 0, false, ""⟩ ∧
    ∀ e : RentalError, detailResult st i ≠ .error e := by
  have hd := (reachable_inv h).default_beyond i hi
  constructor
  · simp [getBookDetails, hd, defaultBook]
  · intro e
    simp [detailResult]

/-- C8 witness: id 5 in the reachable one-listing state st1. -/
theorem C8_witness :
    getBookDetails st1 5 = ⟨"", 0, 0, 0, 0, 0, false, ""⟩ ∧
    ∀ e : RentalError, detailResult st1 5 ≠ .error e :=
  C8_detail_unknown_id reachable_st1 (by decide)

/-- C9: the fee arithmetic never wraps modulo 2^256.  On success every
checked operation produced its exact mathematical value: the rent
precondition sum deposit + dailyPrice fits in uint256 and the refund is
the exact difference, and the return accounting values are exactly the
ceiling-day, late-fee and owed formulas with the total within uint256.
When deposit + dailyPrice exceeds uint256 the rent fails with the fatal
arithmetic-overflow error, a failing fee computation only ever fails
with that fatal error, and such a failure aborts the whole return. -/
theorem C9_checked_arithmetic (st : ContractState) (bookId sender value now : Nat) :
    (∀ st' rec, rentBook st bookId sender value now = .ok (st', rec) →
      (st.books bookId).deposit + (st.books bookId).dailyPrice ≤ UINT256_MAX ∧
      value ≥ (st.books bookId).deposit + (st.books bookId).dailyPrice ∧
      rec.renterRefund =
        value - ((st.books bookId).deposit + (st.books bookId).dailyPrice)) ∧
    ((st.books bookId).owner ≠ 0 → (st.books bookId).isAvailable = true →
      sender ≠ (st.books bookId).owner →
      UINT256_MAX < (st.books bookId).deposit + (st.books bookId).dailyPrice →
      rentBook st bookId sender value now = .error .arithmeticPanic) ∧
    (∀ book : Book, ∀ n d f t : Nat,
      rentalAccounting book n = .ok (d, f, t) →
      d = max (ceilDiv (n - book.rentedAt) 86400) 1 ∧
      f = (if book.rentalPeriod < n then
        book.dailyPrice * ceilDiv (n - book.rentalPeriod) 86400 else 0) ∧
      t = book.dailyPrice * (d - 1) + f ∧
      t ≤ UINT256_MAX) ∧
    (∀ book : Book, ∀ n : Nat, ∀ e,
      rentalAccounting book n = .error e → e = .arithmeticPanic) ∧
    (∀ e, (st.books bookId).owner ≠ 0 → (st.books bookId).isAvailable = false →
      sender = (st.books bookId).renter →
      rentalAccounting (st.books bookId) now = .error e →
      returnBook st bookId sender now = .error e) := by
  refine ⟨?_, ?_, ?_, ?_, ?_⟩
  · intro st' rec h
    obtain ⟨_, _, _, h4, h5, _, _, hrr, _⟩ := rentBook_ok h
    exact ⟨h4, h5, hrr⟩
  · intro h1 h2 h3 h4
    exact rentBook_overflow_panic st bookId sender value now h1 h2 h3 h4
  · intro book n d f t h
    obtain ⟨_, hd, hf, ht, hb⟩ := rentalAccounting_ok h
    exact ⟨hd, hf, ht, hb⟩
  · intro book n e h
    exact rentalAccounting_error h
  · intro e h1 h2 h3 he
    simp only [returnBook]
    rw [if_pos h1, if_pos h2, if_pos h3, he]

/-- C9 witness: the overflowing listing stBig makes rent revert with the
fatal overflow error, while the ordinary return accounting of st2 at
t = 200000 yields the exact values 3 days, late fee 200, owed 400. -/
theorem C9_witness :
    rentBook stBig 0 2 1000 0 = .error .arithmeticPanic ∧
    (3 = max (ceilDiv (200000 - (st2.books 0).rentedAt) 86400) 1 ∧
     200 = (if (st2.books 0).rentalPeriod < 200000 then
       (st2.books 0).dailyPrice * ceilDiv (200000 - (st2.books 0).rentalPeriod) 86400
       else 0) ∧
     400 = (st2.books 0).dailyPrice * (3 - 1) + 200 ∧
     400 ≤ UINT256_MAX) := by
  constructor
  · exact (C9_checked_arithmetic stBig 0 2 1000 0).2.1 (by decide) (by decide)
      (by decide) (by decide)
  · exact (C9_checked_arithmetic st2 0 2 1000 200000).2.2.1 (st2.books 0) 200000
      3 200 400 rfl

/-- C10: a successful rent touches only the rented item and the list of
the renting caller; a successful return touches only the returned item
and the list of the stored renter (the caller); a successful list
creates one item under the fresh id and touches no existing item and no
rental list; and every failed rent, return or list reverts to the exact
pre-state. -/
theorem C10_frame_conditions (st : ContractState) :
    (∀ bookId sender value now st' rec,
      rentBook st bookId sender value now = .ok (st', rec) →
      (∀ j, j ≠ bookId → st'.books j = st.books j) ∧
      (∀ x, x ≠ sender → st'.userRentals x = st.userRentals x) ∧
      st'.bookIdCounter = st.bookIdCounter) ∧
    (∀ bookId sender now st' rec,
      returnBook st bookId sender now = .ok (st', rec) →
      sender = (st.books bookId).renter ∧
      (∀ j, j ≠ bookId → st'.books j = st.books j) ∧
      (∀ x, x ≠ sender → st'.userRentals x = st.userRentals x) ∧
      st'.bookIdCounter = st.bookIdCounter) ∧
    (∀ sender title dailyPrice deposit uri st' id,
      listBook st sender title dailyPrice deposit uri = .ok (st', id) →
      id = st.bookIdCounter ∧
      (∀ j, j < st.bookIdCounter → st'.books j = st.books j) ∧
      st'.userRentals = st.userRentals) ∧
    (∀ bookId sender value now e,
      rentBook st bookId sender value now = .error e →
      rentBookTx st bookId sender value now = (st, .error e)) ∧
    (∀ bookId sender now e,
      returnBook st bookId sender now = .error e →
      returnBookTx st bookId sender now = (st, .error e)) ∧
    (∀ sender title dailyPrice deposit uri e,
      listBook st sender title dailyPrice deposit uri = .error e →
      listBookTx st sender title dailyPrice deposit uri = (st, .error e)) := by
  refine ⟨?_, ?_, ?_, ?_, ?_, ?_⟩
  · intro bookId sender value now st' rec h
    obtain ⟨_, _, _, _, _, _, _, _, hbf, _, _, _, _, _, _, _, _, _, huf, _,
      hcnt, _⟩ := rentBook_ok h
    exact ⟨hbf, huf, hcnt⟩
  · intro bookId sender now st' rec h
    obtain ⟨_, _, hsr, _, hbf, _, _, _, _, _, _, _, _, _, huf, _, hcnt, _⟩ :=
      returnBook_ok h
    exact ⟨hsr, hbf, huf, hcnt⟩
  · intro sender title dailyPrice deposit uri st' id h
    obtain ⟨_, _, hid, _, hbf, _, hur, _⟩ := listBook_ok h
    refine ⟨hid, fun j hj => hbf j (by omega), hur⟩
  · intro bookId sender value now e he
    simp [rentBookTx, he]
  · intro bookId sender now e he
    simp [returnBookTx, he]
  · intro sender title dailyPrice deposit uri e he
    simp [listBookTx, he]

/-- C10 witness: the concrete rent of st1 leaves item 5, the list of
holder 3 and the id counter unchanged, and a failed rent with payment 50
reverts to st1 exactly. -/
theorem C10_witness :
    (st2.books 5 = st1.books 5 ∧
     st2.userRentals 3 = st1.userRentals 3 ∧
     st2.bookIdCounter = st1.bookIdCounter) ∧
    rentBookTx st1 0 2 50 0 = (st1, .error .insufficientPayment) := by
  have h := (C10_frame_conditions st1).1 0 2 1100 0 st2 ⟨100, 0⟩ rent_st2
  refine ⟨⟨h.1 5 (by decide), h.2.1 3 (by decide), h.2.2⟩, ?_⟩
  exact (C10_frame_conditions st1).2.2.2.1 0 2 50 0 .insufficientPayment (by rfl)
